import Mathlib

/-!
# gemini-openai-proxy: the HTTP handlers of `api/handler.go`

A shallow embedding of the request handlers and of the error translator
`handleGenerateContentError`.  A handler is a function from what it reads
(the header, the outcome of JSON binding, the backend) to the HTTP response
it produces through gin, together with the list of backend calls it made.
-/

namespace GeminiProxy

/-! ## Data model -/

/-- Dynamic value of the field `Code any` of `openai.APIError`: a nil
interface, an `int`, or a value of any other dynamic type (a string, a
`float64` decoded from JSON, ...). -/
inductive AnyCode where
  | nil
  | int (n : Int)
  | other (repr : String)
  deriving DecidableEq, Repr

/-- Fields of `openai.APIError` the handlers read or set; `Type_` is the Go
field `Type`. -/
structure APIError where
  Code : AnyCode := AnyCode.nil
  Message : String := ""
  Type_ : String := ""
  deriving DecidableEq, Repr

/-- Fields of `googleapi.Error` the handlers read. -/
structure GoogleError where
  Code : Int
  Message : String
  deriving DecidableEq, Repr

/-- A Go `error` value with its `Unwrap` chain.  Every constructor carries
the text its `Error()` method returns.  `*openai.APIError` has no `Unwrap`
method, so it ends a chain; `*googleapi.Error` may wrap another error
(`googleWrap`) or none (`google`); `wrap` is any other wrapper, such as the
ones of `errors.Wrap` and of `fmt.Errorf` with `%w`.  Chains are linear:
errors with several children (`errors.Join`) are not modelled. -/
inductive GoError where
  | plain (text : String)
  | api (e : APIError) (text : String)
  | google (g : GoogleError) (text : String)
  | googleWrap (g : GoogleError) (text : String) (inner : GoError)
  | wrap (text : String) (inner : GoError)
  deriving DecidableEq, Repr

namespace GoError

/-- The method `err.Error()` of the outermost error. -/
def Error : GoError → String
  | plain text => text
  | api _ text => text
  | google _ text => text
  | googleWrap _ text _ => text
  | wrap text _ => text

/-- `errors.As(err, &openaiErr)` with `openaiErr : *openai.APIError`: the
first error of the chain of that type. -/
def asAPIError : GoError → Option APIError
  | plain _ => none
  | api e _ => some e
  | google _ _ => none
  | googleWrap _ _ inner => asAPIError inner
  | wrap _ inner => asAPIError inner

/-- `errors.As(err, &googleErr)` with `googleErr : *googleapi.Error`: the
first error of the chain of that type. -/
def asGoogleError : GoError → Option GoogleError
  | plain _ => none
  | api _ _ => none
  | google g _ => some g
  | googleWrap g _ _ => some g
  | wrap _ inner => asGoogleError inner

/-- The `*openai.APIError` values met when unwrapping `err` step by step. -/
def apiErrors : GoError → List APIError
  | plain _ => []
  | api e _ => [e]
  | google _ _ => []
  | googleWrap _ _ inner => apiErrors inner
  | wrap _ inner => apiErrors inner

/-- The `*googleapi.Error` values met when unwrapping `err` step by step. -/
def googleErrors : GoError → List GoogleError
  | plain _ => []
  | api _ _ => []
  | google g _ => [g]
  | googleWrap g _ inner => g :: googleErrors inner
  | wrap _ inner => googleErrors inner

end GoError

/-- The constant `http.StatusOK`. -/
def StatusOK : Int := 200

/-- The constant `http.StatusBadRequest`. -/
def StatusBadRequest : Int := 400

/-- The constant `http.StatusTooManyRequests`. -/
def StatusTooManyRequests : Int := 429

/-- The constant `http.StatusInternalServerError`. -/
def StatusInternalServerError : Int := 500

/-- A Go slice: `nil` (rendered as JSON `null`) or a list of items
(rendered as a JSON array, `[]` when empty). -/
inductive GoSlice (α : Type) where
  | nil
  | items (xs : List α)
  deriving DecidableEq, Repr

/-- The built-in `append(s, x)`. -/
def GoSlice.append {α : Type} : GoSlice α → α → GoSlice α
  | GoSlice.nil, x => GoSlice.items [x]
  | GoSlice.items xs, x => GoSlice.items (xs ++ [x])

/-- Fields of `openai.Model` set by the handlers. -/
structure Model where
  CreatedAt : Int
  ID : String
  Object : String
  OwnedBy : String
  deriving DecidableEq, Repr

/-- One rendered server-sent event, `adapter.Event`. -/
structure Event where
  Data : String
  deriving DecidableEq, Repr

/-- Backend result of a chat completion, kept abstract. -/
structure ChatCompletionResponse where
  raw : String
  deriving DecidableEq, Repr

/-- Backend result of an embedding call, kept abstract. -/
structure EmbeddingResponse where
  raw : String
  deriving DecidableEq, Repr

/-- The body of a response: the value a handler has gin write, or `empty`
when no body is written. -/
inductive Body where
  | empty
  | apiError (e : APIError)
  | chat (r : ChatCompletionResponse)
  | embedding (r : EmbeddingResponse)
  | modelList (object : String) (data : GoSlice Model)
  | eventStream (events : List Event) (returned : Bool)
  deriving DecidableEq, Repr

/-- The response of a handler: the status held by gin's response writer,
the body written, whether the context was aborted, the headers the handler
set itself, and whether writing the response panicked (`net/http` rejects a
status below 100 or above 999 with `invalid WriteHeader code`). -/
structure Response where
  status : Int
  body : Body
  aborted : Bool := false
  headers : List (String × String) := []
  panicked : Bool := false
  deriving DecidableEq, Repr

/-! ## Writing a JSON response through gin -/

/-- The function `bodyAllowedForStatus` of gin: no body for the statuses
100-199, 204 and 304. -/
def bodyAllowedForStatus (status : Int) : Bool :=
  if 100 ≤ status ∧ status ≤ 199 then false
  else if status = 204 then false
  else if status = 304 then false
  else true

/-- The call `c.JSON(code, obj)` on a context to which nothing has been
written yet.  `c.Status(code)` replaces the writer's status, 200 at first,
only when `code > 0`.  When `bodyAllowedForStatus(code)` is false the header
is written with no body.  Otherwise the body is rendered, which writes the
header first, and `net/http` panics on a status below 100 or above 999. -/
def JSON (code : Int) (obj : Body) : Response :=
  let status := if code > 0 then code else StatusOK
  if bodyAllowedForStatus code = false then
    { status := status, body := Body.empty }
  else if status < 100 ∨ status > 999 then
    { status := status, body := Body.empty, panicked := true }
  else
    { status := status, body := obj }

/-- The call `c.AbortWithStatusJSON(code, obj)`: `c.Abort()` followed by
`c.JSON(code, obj)`. -/
def AbortWithStatusJSON (code : Int) (obj : Body) : Response :=
  { JSON code obj with aborted := true }

/-! ## The error translator -/

/-- Embedding of `handleGenerateContentError` (handler.go, lines 123-169);
the log lines are left out. -/
def handleGenerateContentError (err : GoError) : Response :=
  match err.asAPIError with
  | some openaiErr =>
    let statusCode :=
      match openaiErr.Code with
      | AnyCode.int code => code
      | _ => StatusInternalServerError
    AbortWithStatusJSON statusCode (Body.apiError openaiErr)
  | none =>
    match err.asGoogleError with
    | some googleErr =>
      let statusCode := googleErr.Code
      if statusCode = StatusTooManyRequests then
        AbortWithStatusJSON StatusTooManyRequests
          (Body.apiError
            { Code := AnyCode.int StatusTooManyRequests,
              Message := "Rate limit exceeded",
              Type_ := "rate_limit_error" })
      else
        AbortWithStatusJSON statusCode
          (Body.apiError
            { Code := AnyCode.int statusCode,
              Message := googleErr.Message,
              Type_ := "server_error" })
    | none =>
      AbortWithStatusJSON StatusInternalServerError
        (Body.apiError
          { Code := AnyCode.int StatusInternalServerError,
            Message := err.Error,
            Type_ := "server_error" })

/-! ## Model listing -/

/-- Fields of `genai.ModelInfo` the handler reads. -/
structure ModelInfo where
  Name : String
  deriving DecidableEq, Repr

/-- The loop of `ModelListHandler` (lines 29-43).  The list holds the
successive results of `iter.Next()` that come before `iterator.Done`; an
error result makes the handler panic with it. -/
def listModelsLoop : List (Except GoError ModelInfo) → GoSlice Model →
    Except GoError (GoSlice Model)
  | [], models => Except.ok models
  | Except.error err :: _, _ => Except.error err
  | Except.ok m :: rest, models =>
    listModelsLoop rest
      (models.append
        { CreatedAt := 1686935002, ID := m.Name, Object := "model", OwnedBy := "gemini" })

/-- Embedding of `ModelListHandler` (lines 25-48): `Except.error err` is
`panic(err)`. -/
def ModelListHandler (iter : List (Except GoError ModelInfo)) : Except GoError Response :=
  match listModelsLoop iter (GoSlice.items []) with
  | Except.error err => Except.error err
  | Except.ok models =>
    Except.ok (JSON StatusOK (Body.modelList "list" models))

/-! ## Chat and embedding handlers -/

/-- Fields of `adapter.ChatCompletionRequest` the handler reads; the rest of
the bound request is kept abstract. -/
structure ChatCompletionRequest where
  Model : String
  Stream : Bool
  rest : String := ""
  deriving DecidableEq, Repr

/-- Fields of `adapter.EmbeddingRequest` the handler reads. -/
structure EmbeddingRequest where
  Model : String
  rest : String := ""
  deriving DecidableEq, Repr

/-- A backend message, `*genai.Content`, kept abstract. -/
structure Content where
  raw : String
  deriving DecidableEq, Repr

/-- The channel returned by `GenerateStreamContent`, as the handler will
observe it: the chunks sent on it in order, and whether the producer closes
it after the last one. -/
structure DataChan where
  pending : List String
  closed : Bool
  deriving DecidableEq, Repr

/-- What the request context gives the handler: the `Authorization` header
and the outcome of `c.ShouldBindJSON(req)` on the request body. -/
structure Context (ρ : Type) where
  Authorization : String
  ShouldBindJSON : Except GoError ρ

/-- Operations the handlers call before any backend call.  `Sscanf h` is
`fmt.Sscanf(h, "Bearer %s", &openaiAPIKey)`: the token, or the text of the
error (the errors of package `fmt` are plain errors without `Unwrap`).  The
other two are the `ToGenaiMessages` methods of the two request types. -/
structure Validation where
  Sscanf : String → Except String String
  chatToGenaiMessages : ChatCompletionRequest → Except GoError (List Content)
  embeddingToGenaiMessages : EmbeddingRequest → Except GoError (List Content)

/-- The backend calls of `adapter.GeminiAdapter`; the first argument is the
model the adapter was built for. -/
structure Backend where
  GenerateContent : String → ChatCompletionRequest → List Content →
    Except GoError ChatCompletionResponse
  GenerateStreamContent : String → ChatCompletionRequest → List Content →
    Except GoError DataChan
  GenerateEmbedding : String → List Content → Except GoError EmbeddingResponse

/-- A call made to the backend. -/
inductive BackendCall where
  | GenerateContent (model : String) (messages : List Content)
  | GenerateStreamContent (model : String) (messages : List Content)
  | GenerateEmbedding (model : String) (messages : List Content)
  deriving DecidableEq, Repr

/-- Result of running a handler: the response and the backend calls made,
in order. -/
structure Outcome where
  response : Response
  calls : List BackendCall
  deriving DecidableEq, Repr

/-- The headers set by `setEventStreamHeaders` (lines 171-177). -/
def setEventStreamHeaders : List (String × String) :=
  [("Content-Type", "text/event-stream"),
   ("Cache-Control", "no-cache"),
   ("Connection", "keep-alive"),
   ("Transfer-Encoding", "chunked"),
   ("X-Accel-Buffering", "no")]

/-- The loop `c.Stream(func ...)` of lines 113-120 on a client that stays
connected: every equation is one call of the step function.  A received
chunk is rendered and the loop goes on; on a closed channel the final event
is rendered and the loop returns; on an empty channel that stays open the
receive blocks and nothing more is rendered.  The result is the events
rendered, in order, and whether the loop returned.  Each event is rendered
with `c.Render(-1, ...)`, which leaves the status at 200. -/
def Stream : List String → Bool → List Event → List Event × Bool
  | data :: rest, closed, events =>
    Stream rest closed (events ++ [{ Data := "data: " ++ data }])
  | [], true, events => (events ++ [{ Data := "data: [DONE]" }], true)
  | [], false, events => (events, false)

/-- Embedding of `ChatProxyHandler` (lines 60-121). -/
def ChatProxyHandler (v : Validation) (client : Backend)
    (c : Context ChatCompletionRequest) : Outcome :=
  match v.Sscanf c.Authorization with
  | Except.error text =>
    { response := handleGenerateContentError (GoError.plain text), calls := [] }
  | Except.ok _ =>
    match c.ShouldBindJSON with
    | Except.error err =>
      { response :=
          JSON StatusBadRequest
            (Body.apiError { Code := AnyCode.int StatusBadRequest, Message := err.Error }),
        calls := [] }
    | Except.ok req =>
      match v.chatToGenaiMessages req with
      | Except.error err =>
        { response :=
            JSON StatusBadRequest
              (Body.apiError { Code := AnyCode.int StatusBadRequest, Message := err.Error }),
          calls := [] }
      | Except.ok messages =>
        if !req.Stream then
          match client.GenerateContent req.Model req messages with
          | Except.error err =>
            { response := handleGenerateContentError err,
              calls := [BackendCall.GenerateContent req.Model messages] }
          | Except.ok resp =>
            { response := JSON StatusOK (Body.chat resp),
              calls := [BackendCall.GenerateContent req.Model messages] }
        else
          match client.GenerateStreamContent req.Model req messages with
          | Except.error err =>
            { response := handleGenerateContentError err,
              calls := [BackendCall.GenerateStreamContent req.Model messages] }
          | Except.ok dataChan =>
            let rendered := Stream dataChan.pending dataChan.closed []
            { response :=
                { status := StatusOK,
                  body := Body.eventStream rendered.1 rendered.2,
                  headers := setEventStreamHeaders },
              calls := [BackendCall.GenerateStreamContent req.Model messages] }

/-- Embedding of `EmbeddingProxyHandler` (lines 179-221). -/
def EmbeddingProxyHandler (v : Validation) (client : Backend)
    (c : Context EmbeddingRequest) : Outcome :=
  match v.Sscanf c.Authorization with
  | Except.error text =>
    { response := handleGenerateContentError (GoError.plain text), calls := [] }
  | Except.ok _ =>
    match c.ShouldBindJSON with
    | Except.error err =>
      { response :=
          JSON StatusBadRequest
            (Body.apiError { Code := AnyCode.int StatusBadRequest, Message := err.Error }),
        calls := [] }
    | Except.ok req =>
      match v.embeddingToGenaiMessages req with
      | Except.error err =>
        { response :=
            JSON StatusBadRequest
              (Body.apiError { Code := AnyCode.int StatusBadRequest, Message := err.Error }),
          calls := [] }
      | Except.ok messages =>
        match client.GenerateEmbedding req.Model messages with
        | Except.error err =>
          { response := handleGenerateContentError err,
            calls := [BackendCall.GenerateEmbedding req.Model messages] }
        | Except.ok resp =>
          { response := JSON StatusOK (Body.embedding resp),
            calls := [BackendCall.GenerateEmbedding req.Model messages] }

/-! ## Sample inputs used to exercise the theorems -/

/-- A validation layer that rejects the empty header the way `fmt.Sscanf`
does and accepts everything else. -/
def sampleValidation : Validation :=
  { Sscanf := fun h => if h = "" then Except.error "unexpected EOF" else Except.ok h,
    chatToGenaiMessages := fun _ => Except.ok [{ raw := "hi" }],
    embeddingToGenaiMessages := fun _ => Except.ok [{ raw := "a" }] }

/-- A backend that answers every call. -/
def sampleBackend : Backend :=
  { GenerateContent := fun _ _ _ => Except.ok { raw := "answer" },
    GenerateStreamContent := fun _ _ _ =>
      Except.ok { pending := ["c1", "c2"], closed := true },
    GenerateEmbedding := fun _ _ => Except.ok { raw := "vector" } }

/-- A backend whose every call fails with a 503 of the Google API. -/
def failingBackend : Backend :=
  { GenerateContent := fun _ _ _ =>
      Except.error (GoError.google { Code := 503, Message := "unavailable" } "googleapi"),
    GenerateStreamContent := fun _ _ _ =>
      Except.error (GoError.google { Code := 503, Message := "unavailable" } "googleapi"),
    GenerateEmbedding := fun _ _ =>
      Except.error (GoError.google { Code := 503, Message := "unavailable" } "googleapi") }

/-! ## Lemmas on writing a response -/

theorem bodyAllowedForStatus_of_ge (code : Int) (h1 : 200 ≤ code) (h3 : code ≠ 204)
    (h4 : code ≠ 304) : bodyAllowedForStatus code = true := by
  unfold bodyAllowedForStatus
  have h : ¬ (100 ≤ code ∧ code ≤ 199) := by omega
  simp [h, h3, h4]

theorem bodyAllowedForStatus_of_le (code : Int) (h : code < 100) :
    bodyAllowedForStatus code = true := by
  unfold bodyAllowedForStatus
  have h1 : ¬ (100 ≤ code ∧ code ≤ 199) := by omega
  have h3 : code ≠ 204 := by omega
  have h4 : code ≠ 304 := by omega
  simp [h1, h3, h4]

/-- A status from 200 to 999 other than 204 and 304 is written as given,
with the body. -/
theorem JSON_of_allowed (code : Int) (obj : Body) (h1 : 200 ≤ code) (h2 : code ≤ 999)
    (h3 : code ≠ 204) (h4 : code ≠ 304) :
    JSON code obj = { status := code, body := obj } := by
  have hpos : code > 0 := by omega
  have hr : ¬ (code < 100 ∨ code > 999) := by omega
  simp [JSON, bodyAllowedForStatus_of_ge code h1 h3 h4, hpos, hr]

theorem AbortWithStatusJSON_of_allowed (code : Int) (obj : Body) (h1 : 200 ≤ code)
    (h2 : code ≤ 999) (h3 : code ≠ 204) (h4 : code ≠ 304) :
    AbortWithStatusJSON code obj = { status := code, body := obj, aborted := true } := by
  simp [AbortWithStatusJSON, JSON_of_allowed code obj h1 h2 h3 h4]

/-- A code that is not positive leaves the status at 200. -/
theorem JSON_of_nonpos (code : Int) (obj : Body) (h : code ≤ 0) :
    JSON code obj = { status := 200, body := obj } := by
  have hpos : ¬ code > 0 := by omega
  simp [JSON, bodyAllowedForStatus_of_le code (by omega), hpos, StatusOK]

theorem JSON_400 (obj : Body) : JSON 400 obj = { status := 400, body := obj } :=
  JSON_of_allowed 400 obj (by decide) (by decide) (by decide) (by decide)

theorem AbortWithStatusJSON_500 (obj : Body) :
    AbortWithStatusJSON 500 obj = { status := 500, body := obj, aborted := true } :=
  AbortWithStatusJSON_of_allowed 500 obj (by decide) (by decide) (by decide) (by decide)

theorem JSON_StatusOK (obj : Body) : JSON StatusOK obj = { status := 200, body := obj } :=
  JSON_of_allowed 200 obj (by decide) (by decide) (by decide) (by decide)

theorem JSON_StatusBadRequest (obj : Body) :
    JSON StatusBadRequest obj = { status := 400, body := obj } :=
  JSON_of_allowed 400 obj (by decide) (by decide) (by decide) (by decide)

theorem AbortWithStatusJSON_StatusTooManyRequests (obj : Body) :
    AbortWithStatusJSON StatusTooManyRequests obj
      = { status := 429, body := obj, aborted := true } :=
  AbortWithStatusJSON_of_allowed 429 obj (by decide) (by decide) (by decide) (by decide)

theorem AbortWithStatusJSON_StatusInternalServerError (obj : Body) :
    AbortWithStatusJSON StatusInternalServerError obj
      = { status := 500, body := obj, aborted := true } :=
  AbortWithStatusJSON_of_allowed 500 obj (by decide) (by decide) (by decide) (by decide)

/-! ## Lemmas on error chains -/

theorem GoError.apiErrors_eq_of_mem {err : GoError} {e : APIError}
    (h : e ∈ err.apiErrors) : err.asAPIError = some e := by
  induction err with
  | plain text => simp [GoError.apiErrors] at h
  | api e0 text =>
    simp only [GoError.apiErrors, List.mem_singleton] at h
    simp [GoError.asAPIError, h]
  | google g text => simp [GoError.apiErrors] at h
  | googleWrap g text inner ih => exact ih h
  | wrap text inner ih => exact ih h

theorem GoError.asAPIError_mem {err : GoError} {e : APIError}
    (h : err.asAPIError = some e) : e ∈ err.apiErrors := by
  induction err with
  | plain text => simp [GoError.asAPIError] at h
  | api e0 text =>
    simp only [GoError.asAPIError, Option.some.injEq] at h
    simp [GoError.apiErrors, h]
  | google g text => simp [GoError.asAPIError] at h
  | googleWrap g text inner ih => exact ih h
  | wrap text inner ih => exact ih h

theorem GoError.asGoogleError_mem {err : GoError} {g : GoogleError}
    (h : err.asGoogleError = some g) : g ∈ err.googleErrors := by
  induction err with
  | plain text => simp [GoError.asGoogleError] at h
  | api e0 text => simp [GoError.asGoogleError] at h
  | google g0 text =>
    simp only [GoError.asGoogleError, Option.some.injEq] at h
    simp [GoError.googleErrors, h]
  | googleWrap g0 text inner ih =>
    simp only [GoError.asGoogleError, Option.some.injEq] at h
    simp [GoError.googleErrors, h]
  | wrap text inner ih => exact ih h

theorem GoError.apiErrors_length_le_one (err : GoError) : err.apiErrors.length ≤ 1 := by
  induction err with
  | plain text => simp [GoError.apiErrors]
  | api e0 text => simp [GoError.apiErrors]
  | google g text => simp [GoError.apiErrors]
  | googleWrap g text inner ih => exact ih
  | wrap text inner ih => exact ih

/-! ## Lemmas on the handlers -/

/-- A chat request that passes validation makes exactly one backend call:
`GenerateStreamContent` in streaming mode, `GenerateContent` otherwise. -/
theorem ChatProxyHandler_calls_of_valid (v : Validation) (client : Backend)
    (c : Context ChatCompletionRequest) (token : String) (req : ChatCompletionRequest)
    (messages : List Content)
    (hauth : v.Sscanf c.Authorization = Except.ok token)
    (hbind : c.ShouldBindJSON = Except.ok req)
    (hmsg : v.chatToGenaiMessages req = Except.ok messages) :
    (ChatProxyHandler v client c).calls
      = if req.Stream then [BackendCall.GenerateStreamContent req.Model messages]
        else [BackendCall.GenerateContent req.Model messages] := by
  cases hs : req.Stream
  · cases hg : client.GenerateContent req.Model req messages <;>
      simp [ChatProxyHandler, hauth, hbind, hmsg, hs, hg]
  · cases hg : client.GenerateStreamContent req.Model req messages <;>
      simp [ChatProxyHandler, hauth, hbind, hmsg, hs, hg]

/-- An embedding request that passes validation makes exactly one backend
call. -/
theorem EmbeddingProxyHandler_calls_of_valid (v : Validation) (client : Backend)
    (c : Context EmbeddingRequest) (token : String) (req : EmbeddingRequest)
    (messages : List Content)
    (hauth : v.Sscanf c.Authorization = Except.ok token)
    (hbind : c.ShouldBindJSON = Except.ok req)
    (hmsg : v.embeddingToGenaiMessages req = Except.ok messages) :
    (EmbeddingProxyHandler v client c).calls
      = [BackendCall.GenerateEmbedding req.Model messages] := by
  cases hg : client.GenerateEmbedding req.Model messages <;>
    simp [EmbeddingProxyHandler, hauth, hbind, hmsg, hg]

/-- An error met while the model iterator runs makes `ModelListHandler`
panic with it. -/
theorem ModelListHandler_panics (ms : List ModelInfo) (err : GoError)
    (rest : List (Except GoError ModelInfo)) :
    ModelListHandler (ms.map Except.ok ++ Except.error err :: rest) = Except.error err := by
  have h : ∀ acc : GoSlice Model,
      listModelsLoop (ms.map Except.ok ++ Except.error err :: rest) acc = Except.error err := by
    induction ms with
    | nil => intro acc; simp [listModelsLoop]
    | cons m tl ih => intro acc; simp [listModelsLoop, ih]
  simp [ModelListHandler, h]

/-! ## Lemmas on the two loops -/

theorem listModelsLoop_ok (ms : List ModelInfo) (acc : List Model) :
    listModelsLoop (ms.map Except.ok) (GoSlice.items acc)
      = Except.ok (GoSlice.items (acc ++ ms.map (fun m =>
          { CreatedAt := 1686935002, ID := m.Name, Object := "model", OwnedBy := "gemini" }))) := by
  induction ms generalizing acc with
  | nil => simp [listModelsLoop]
  | cons m rest ih =>
    simp [listModelsLoop, GoSlice.append, ih]

theorem Stream_eq (chunks : List String) (closed : Bool) (events : List Event) :
    Stream chunks closed events
      = (events ++ chunks.map (fun data => { Data := "data: " ++ data })
          ++ (if closed then [{ Data := "data: [DONE]" }] else []), closed) := by
  induction chunks generalizing events with
  | nil => cases closed <;> simp [Stream]
  | cons data rest ih => simp [Stream, ih]

/-- What `c.AbortWithStatusJSON` produces, read off the status the writer
ends with: a panic exactly for a status below 100 or above 999, no body for
a status that allows none, and the given body otherwise. -/
theorem AbortWithStatusJSON_outcome (code : Int) (obj : Body) :
    (AbortWithStatusJSON code obj).aborted = true ∧
    ((AbortWithStatusJSON code obj).panicked = true ↔
      ((AbortWithStatusJSON code obj).status < 100 ∨
        999 < (AbortWithStatusJSON code obj).status)) ∧
    ((AbortWithStatusJSON code obj).panicked = false →
      bodyAllowedForStatus (AbortWithStatusJSON code obj).status = false →
      (AbortWithStatusJSON code obj).body = Body.empty) ∧
    ((AbortWithStatusJSON code obj).panicked = false →
      bodyAllowedForStatus (AbortWithStatusJSON code obj).status = true →
      (AbortWithStatusJSON code obj).body = obj) := by
  by_cases hpos : code > 0
  · by_cases hb : bodyAllowedForStatus code = false
    · have hr : ¬ (code < 100 ∨ 999 < code) := by
        unfold bodyAllowedForStatus at hb
        split at hb
        · omega
        · split at hb
          · omega
          · split at hb
            · omega
            · cases hb
      simp [AbortWithStatusJSON, JSON, hpos, hb, hr]
    · have hb2 : bodyAllowedForStatus code = true := by simpa using hb
      by_cases hr : code < 100 ∨ code > 999
      · have hr2 : code < 100 ∨ 999 < code := hr
        simp [AbortWithStatusJSON, JSON, hpos, hb2, hr, hr2]
      · have hr2 : ¬ (code < 100 ∨ 999 < code) := hr
        simp [AbortWithStatusJSON, JSON, hpos, hb2, hr, hr2]
  · have hb : bodyAllowedForStatus code = true := bodyAllowedForStatus_of_le code (by omega)
    have h200 : bodyAllowedForStatus 200 = true := by decide
    simp [AbortWithStatusJSON, JSON, hpos, hb, StatusOK, h200]

/-- Every error makes the translator call `c.AbortWithStatusJSON` once, with
an API error object: the one found in the chain, or one it builds with an
integer code and the type `rate_limit_error` or `server_error`. -/
theorem handleGenerateContentError_call (err : GoError) :
    ∃ (code : Int) (e : APIError),
      handleGenerateContentError err = AbortWithStatusJSON code (Body.apiError e) ∧
      (err.asAPIError = some e ∨
        (err.asAPIError = none ∧ (∃ n : Int, e.Code = AnyCode.int n) ∧
          (e.Type_ = "rate_limit_error" ∨ e.Type_ = "server_error"))) := by
  cases hapi : err.asAPIError with
  | some e =>
    refine ⟨(match e.Code with
      | AnyCode.int code => code
      | _ => StatusInternalServerError), e, ?_, Or.inl rfl⟩
    simp only [handleGenerateContentError, hapi]
  | none =>
    cases hg : err.asGoogleError with
    | some g =>
      by_cases hc : g.Code = StatusTooManyRequests
      · refine ⟨StatusTooManyRequests,
          { Code := AnyCode.int StatusTooManyRequests, Message := "Rate limit exceeded",
            Type_ := "rate_limit_error" }, ?_, Or.inr ⟨rfl, ⟨_, rfl⟩, Or.inl rfl⟩⟩
        simp only [handleGenerateContentError, hapi, hg, hc, if_true]
      · refine ⟨g.Code,
          { Code := AnyCode.int g.Code, Message := g.Message, Type_ := "server_error" },
          ?_, Or.inr ⟨rfl, ⟨_, rfl⟩, Or.inr rfl⟩⟩
        simp only [handleGenerateContentError, hapi, hg, hc, if_false]
    | none =>
      refine ⟨StatusInternalServerError,
        { Code := AnyCode.int StatusInternalServerError, Message := err.Error,
          Type_ := "server_error" }, ?_, Or.inr ⟨rfl, ⟨_, rfl⟩, Or.inr rfl⟩⟩
      simp only [handleGenerateContentError, hapi, hg]

/-- The prefix `data: ` can be cancelled. -/
theorem data_prefix_cancel (a b : String) (h : "data: " ++ a = "data: " ++ b) : a = b := by
  have h2 := congrArg String.data h
  simp only [String.data_append] at h2
  exact String.ext (List.append_cancel_left h2)

/-- The terminating event occurs once among the events of a closed stream
exactly when no chunk is the text `[DONE]`. -/
theorem count_done_eq_one_iff (chunks : List String) :
    (chunks.map (fun data => ({ Data := "data: " ++ data } : Event))
      ++ [({ Data := "data: [DONE]" } : Event)]).count { Data := "data: [DONE]" } = 1
      ↔ "[DONE]" ∉ chunks := by
  have hd : ("data: [DONE]" : String) = "data: " ++ "[DONE]" := by decide
  rw [List.count_append]
  simp only [List.count_singleton_self]
  rw [Nat.add_left_eq_self, List.count_eq_zero]
  constructor
  · intro h hmem
    apply h
    rw [List.mem_map]
    exact ⟨"[DONE]", hmem, by rw [hd]⟩
  · intro h hmem
    rw [List.mem_map] at hmem
    obtain ⟨c, hc, heq⟩ := hmem
    have h3 : "data: " ++ c = "data: " ++ "[DONE]" := by
      have := congrArg Event.Data heq
      simpa [hd] using this
    exact h (data_prefix_cancel _ _ h3 ▸ hc)

/-- The response of a chat request that passes validation, in streaming
mode, once the backend has returned the data channel. -/
theorem ChatProxyHandler_stream (v : Validation) (client : Backend)
    (c : Context ChatCompletionRequest) (token : String) (req : ChatCompletionRequest)
    (messages : List Content) (dataChan : DataChan)
    (hauth : v.Sscanf c.Authorization = Except.ok token)
    (hbind : c.ShouldBindJSON = Except.ok req)
    (hmsg : v.chatToGenaiMessages req = Except.ok messages)
    (hstream : req.Stream = true)
    (hchan : client.GenerateStreamContent req.Model req messages = Except.ok dataChan) :
    (ChatProxyHandler v client c).response
      = { status := 200,
          body := Body.eventStream
            (dataChan.pending.map (fun data => { Data := "data: " ++ data })
              ++ (if dataChan.closed then [{ Data := "data: [DONE]" }] else []))
            dataChan.closed,
          aborted := false,
          headers := setEventStreamHeaders } := by
  simp [ChatProxyHandler, hauth, hbind, hmsg, hstream, hchan, Stream_eq, StatusOK]

/-! ## The error translator: claims C1, C4, C5, C10 -/

/-- C1 (counterexample): a `googleapi.Error` with code 429 that wraps an
already-shaped API error with code 400 is answered with status 400 and that
API error as the body, not with the normalized rate-limit response. -/
theorem C1_wrapped_api_error_not_rate_limited :
    (GoError.googleWrap { Code := 429, Message := "quota" } "googleapi: Error 429"
        (GoError.api { Code := AnyCode.int 400, Message := "bad", Type_ := "invalid_request_error" }
          "bad")).asGoogleError
      = some { Code := 429, Message := "quota" } ∧
    handleGenerateContentError
        (GoError.googleWrap { Code := 429, Message := "quota" } "googleapi: Error 429"
          (GoError.api { Code := AnyCode.int 400, Message := "bad", Type_ := "invalid_request_error" }
            "bad"))
      = { status := 400,
          body := Body.apiError
            { Code := AnyCode.int 400, Message := "bad", Type_ := "invalid_request_error" },
          aborted := true } := by
  constructor
  · rfl
  · simp [handleGenerateContentError, GoError.asAPIError,
      AbortWithStatusJSON_of_allowed 400 _ (by decide) (by decide) (by decide) (by decide)]

/-- C1 (amended): for every error whose chain holds no already-shaped API
error and whose backend (`googleapi.Error`) error has code 429, whatever its
message, the request is aborted with status 429 and the body
`{code: 429, message: "Rate limit exceeded", type: "rate_limit_error"}`; so
any two such errors get identical responses. -/
theorem C1_rate_limit_normalized (err : GoError) (g : GoogleError)
    (hapi : err.asAPIError = none) (hg : err.asGoogleError = some g)
    (hcode : g.Code = 429) :
    handleGenerateContentError err
      = { status := 429,
          body := Body.apiError
            { Code := AnyCode.int 429, Message := "Rate limit exceeded",
              Type_ := "rate_limit_error" },
          aborted := true } ∧
    ∀ (err2 : GoError) (g2 : GoogleError), err2.asAPIError = none →
      err2.asGoogleError = some g2 → g2.Code = 429 →
      handleGenerateContentError err2 = handleGenerateContentError err := by
  have key : ∀ (x : GoError) (y : GoogleError), x.asAPIError = none →
      x.asGoogleError = some y → y.Code = 429 →
      handleGenerateContentError x
        = { status := 429,
            body := Body.apiError
              { Code := AnyCode.int 429, Message := "Rate limit exceeded",
                Type_ := "rate_limit_error" },
            aborted := true } := by
    intro x y hx hy hc
    simp [handleGenerateContentError, hx, hy, hc, StatusTooManyRequests,
      AbortWithStatusJSON_of_allowed 429 _ (by decide) (by decide) (by decide) (by decide)]
  refine ⟨key err g hapi hg hcode, ?_⟩
  intro err2 g2 h1 h2 h3
  rw [key err2 g2 h1 h2 h3, key err g hapi hg hcode]

/-- C1 (witness): a wrapped 429 of the backend. -/
theorem C1_rate_limit_normalized_witness :
    handleGenerateContentError
        (GoError.wrap "generate: googleapi: Error 429"
          (GoError.google { Code := 429, Message := "Resource has been exhausted" }
            "googleapi: Error 429"))
      = { status := 429,
          body := Body.apiError
            { Code := AnyCode.int 429, Message := "Rate limit exceeded",
              Type_ := "rate_limit_error" },
          aborted := true } :=
  (C1_rate_limit_normalized
    (GoError.wrap "generate: googleapi: Error 429"
      (GoError.google { Code := 429, Message := "Resource has been exhausted" }
        "googleapi: Error 429"))
    { Code := 429, Message := "Resource has been exhausted" } rfl rfl rfl).1

/-- C4 (counterexample): an already-shaped API error whose code is the
integer 0 is answered with HTTP status 200, not 0; one whose code is 204 is
answered with status 204 and no body, not with the error as the body; and
for one whose code is 99 the write panics. -/
theorem C4_api_error_code_not_a_status :
    handleGenerateContentError
        (GoError.api { Code := AnyCode.int 0, Message := "m", Type_ := "t" } "m")
      = { status := 200,
          body := Body.apiError { Code := AnyCode.int 0, Message := "m", Type_ := "t" },
          aborted := true } ∧
    handleGenerateContentError
        (GoError.api { Code := AnyCode.int 204, Message := "m", Type_ := "t" } "m")
      = { status := 204, body := Body.empty, aborted := true } ∧
    handleGenerateContentError
        (GoError.api { Code := AnyCode.int 99, Message := "m", Type_ := "t" } "m")
      = { status := 99, body := Body.empty, aborted := true, panicked := true } := by
  refine ⟨?_, ?_, ?_⟩ <;>
    simp [handleGenerateContentError, GoError.asAPIError, AbortWithStatusJSON, JSON,
      bodyAllowedForStatus, StatusOK]

/-- C4 (amended): classification is first-match-wins with the already-shaped
API error first.  For every error whose chain contains an `*openai.APIError`
`e` whose code is not an integer, or is an integer from 200 to 999 other
than 204 and 304, the response is aborted with `e` itself as the body,
unchanged; the HTTP status is `e.Code` when that is an integer and 500
otherwise.  Nothing is assumed about the `googleapi.Error` values of the
chain, so this holds when the chain also contains one, with code 429 or any
other. -/
theorem C4_api_error_passes_through_first (err : GoError) (e : APIError)
    (h : e ∈ err.apiErrors)
    (hcode : ∀ n : Int, e.Code = AnyCode.int n → 200 ≤ n ∧ n ≤ 999 ∧ n ≠ 204 ∧ n ≠ 304) :
    handleGenerateContentError err
      = { status := (match e.Code with
            | AnyCode.int code => code
            | _ => 500),
          body := Body.apiError e,
          aborted := true } := by
  have hfirst := GoError.apiErrors_eq_of_mem h
  cases hc : e.Code with
  | nil =>
    simp [handleGenerateContentError, hfirst, hc, AbortWithStatusJSON_StatusInternalServerError]
  | int n =>
    obtain ⟨h1, h2, h3, h4⟩ := hcode n hc
    simp [handleGenerateContentError, hfirst, hc, AbortWithStatusJSON_of_allowed n _ h1 h2 h3 h4]
  | other repr =>
    simp [handleGenerateContentError, hfirst, hc, AbortWithStatusJSON_StatusInternalServerError]

/-- C4 (witness): a `googleapi.Error` with code 429 wrapping an API error
with code 401 is answered with status 401 and the API error as the body. -/
theorem C4_api_error_passes_through_first_witness :
    { Code := 429, Message := "quota" } ∈
      (GoError.googleWrap { Code := 429, Message := "quota" } "googleapi: Error 429"
        (GoError.api { Code := AnyCode.int 401, Message := "no key", Type_ := "auth" }
          "no key")).googleErrors ∧
    handleGenerateContentError
      (GoError.googleWrap { Code := 429, Message := "quota" } "googleapi: Error 429"
        (GoError.api { Code := AnyCode.int 401, Message := "no key", Type_ := "auth" }
          "no key"))
      = { status := 401,
          body := Body.apiError { Code := AnyCode.int 401, Message := "no key", Type_ := "auth" },
          aborted := true } :=
  ⟨by simp [GoError.googleErrors],
   C4_api_error_passes_through_first
      (GoError.googleWrap { Code := 429, Message := "quota" } "googleapi: Error 429"
        (GoError.api { Code := AnyCode.int 401, Message := "no key", Type_ := "auth" }
          "no key"))
      { Code := AnyCode.int 401, Message := "no key", Type_ := "auth" }
      (by simp [GoError.apiErrors])
      (by
        intro n hn
        have h401 : n = 401 := (AnyCode.int.inj hn).symm
        subst h401
        decide)⟩

/-- C5 (counterexample): a backend error with code 0 is answered with HTTP
status 200, not 0; one with code 304 is answered with status 304 and no
body; and for one with code 1000 the write panics. -/
theorem C5_backend_code_not_a_status :
    handleGenerateContentError (GoError.google { Code := 0, Message := "m" } "googleapi")
      = { status := 200,
          body := Body.apiError
            { Code := AnyCode.int 0, Message := "m", Type_ := "server_error" },
          aborted := true } ∧
    handleGenerateContentError (GoError.google { Code := 304, Message := "m" } "googleapi")
      = { status := 304, body := Body.empty, aborted := true } ∧
    handleGenerateContentError (GoError.google { Code := 1000, Message := "m" } "googleapi")
      = { status := 1000, body := Body.empty, aborted := true, panicked := true } := by
  refine ⟨?_, ?_, ?_⟩ <;>
    simp [handleGenerateContentError, GoError.asAPIError, GoError.asGoogleError,
      AbortWithStatusJSON, JSON, bodyAllowedForStatus, StatusOK, StatusTooManyRequests]

/-- C5 (amended): for every error whose chain holds no already-shaped API
error and whose backend (`googleapi.Error`) error has message `m` and a code
`s` other than 429 that is from 200 to 999 and neither 204 nor 304, the
request is aborted with HTTP status `s` and the body
`{code: s, message: m, type: "server_error"}`. -/
theorem C5_backend_error_passed_through (err : GoError) (g : GoogleError)
    (hapi : err.asAPIError = none) (hg : err.asGoogleError = some g)
    (hcode : g.Code ≠ 429)
    (hrange : 200 ≤ g.Code ∧ g.Code ≤ 999 ∧ g.Code ≠ 204 ∧ g.Code ≠ 304) :
    handleGenerateContentError err
      = { status := g.Code,
          body := Body.apiError
            { Code := AnyCode.int g.Code, Message := g.Message, Type_ := "server_error" },
          aborted := true } := by
  obtain ⟨h1, h2, h3, h4⟩ := hrange
  simp [handleGenerateContentError, hapi, hg, hcode, StatusTooManyRequests,
    AbortWithStatusJSON_of_allowed g.Code _ h1 h2 h3 h4]

/-- C5 (witness): a wrapped 503 of the backend. -/
theorem C5_backend_error_passed_through_witness :
    handleGenerateContentError
        (GoError.wrap "generate: googleapi: Error 503"
          (GoError.google { Code := 503, Message := "The model is overloaded" }
            "googleapi: Error 503"))
      = { status := 503,
          body := Body.apiError
            { Code := AnyCode.int 503, Message := "The model is overloaded",
              Type_ := "server_error" },
          aborted := true } :=
  C5_backend_error_passed_through
    (GoError.wrap "generate: googleapi: Error 503"
      (GoError.google { Code := 503, Message := "The model is overloaded" }
        "googleapi: Error 503"))
    { Code := 503, Message := "The model is overloaded" } rfl rfl (by decide) (by decide)

/-- C10 (counterexample): for a backend error with code 99 the write panics
and there is no response; a backend error with code 204 is answered without
a body; and an already-shaped API error with a nil code and an empty type is
passed through as the body, which then carries no code. -/
theorem C10_no_body_or_no_code :
    handleGenerateContentError
        (GoError.googleWrap { Code := 99, Message := "m" } "googleapi" (GoError.plain "cause"))
      = { status := 99, body := Body.empty, aborted := true, panicked := true } ∧
    handleGenerateContentError
        (GoError.wrap "call" (GoError.google { Code := 204, Message := "m" } "googleapi"))
      = { status := 204, body := Body.empty, aborted := true } ∧
    handleGenerateContentError
        (GoError.api { Code := AnyCode.nil, Message := "m", Type_ := "" } "m")
      = { status := 500,
          body := Body.apiError { Code := AnyCode.nil, Message := "m", Type_ := "" },
          aborted := true } := by
  refine ⟨?_, ?_, ?_⟩ <;>
    simp [handleGenerateContentError, GoError.asAPIError, GoError.asGoogleError,
      AbortWithStatusJSON, JSON, bodyAllowedForStatus, StatusOK, StatusTooManyRequests,
      StatusInternalServerError]

/-- C10 (amended): for every error that is neither an already-shaped API
error nor a backend (`googleapi.Error`) error, the request is aborted with
HTTP status 500 and the body
`{code: 500, message: <the error's text>, type: "server_error"}`.  Together
with the other two branches the classifier handles every error, and the
status decides between three outcomes: the write panics and there is no
response (status below 100 or above 999); a response without a body (status
100-199, 204 or 304); or a response whose body is a single API error object,
which is either the passed-through API error with whatever code and type it
has, or an object built by the translator that carries an integer code, a
message and the type `rate_limit_error` or `server_error`. -/
theorem C10_fallback_and_outcomes :
    (∀ err : GoError, err.asAPIError = none → err.asGoogleError = none →
      handleGenerateContentError err
        = { status := 500,
            body := Body.apiError
              { Code := AnyCode.int 500, Message := err.Error, Type_ := "server_error" },
            aborted := true }) ∧
    (∀ err : GoError,
      (handleGenerateContentError err).aborted = true ∧
      ((handleGenerateContentError err).panicked = true ↔
        ((handleGenerateContentError err).status < 100 ∨
          999 < (handleGenerateContentError err).status)) ∧
      ((handleGenerateContentError err).panicked = false →
        bodyAllowedForStatus (handleGenerateContentError err).status = false →
        (handleGenerateContentError err).body = Body.empty) ∧
      ((handleGenerateContentError err).panicked = false →
        bodyAllowedForStatus (handleGenerateContentError err).status = true →
        ∃ e : APIError,
          (handleGenerateContentError err).body = Body.apiError e ∧
          (err.asAPIError = some e ∨
            (err.asAPIError = none ∧ (∃ n : Int, e.Code = AnyCode.int n) ∧
              (e.Type_ = "rate_limit_error" ∨ e.Type_ = "server_error"))))) := by
  constructor
  · intro err hapi hg
    simp [handleGenerateContentError, hapi, hg, StatusInternalServerError,
      AbortWithStatusJSON_of_allowed 500 _ (by decide) (by decide) (by decide) (by decide)]
  · intro err
    obtain ⟨code, e, hcall, hclass⟩ := handleGenerateContentError_call err
    obtain ⟨h1, h2, h3, h4⟩ := AbortWithStatusJSON_outcome code (Body.apiError e)
    rw [hcall]
    exact ⟨h1, h2, h3, fun hp hb => ⟨e, h4 hp hb, hclass⟩⟩

/-- C10 (witness): a plain local error, here the one `fmt.Sscanf` returns on
empty input. -/
theorem C10_fallback_and_outcomes_witness :
    handleGenerateContentError (GoError.plain "unexpected EOF")
      = { status := 500,
          body := Body.apiError
            { Code := AnyCode.int 500, Message := "unexpected EOF", Type_ := "server_error" },
          aborted := true } :=
  C10_fallback_and_outcomes.1 (GoError.plain "unexpected EOF") rfl rfl

/-! ## Model listing: claim C9 -/

/-- C9: for every finite list of backend models the iterator yields without
error, `ModelListHandler` answers with status 200 and
`{object: "list", data: d}` where `d` is a non-nil slice with one entry
`{id: m.Name, object: "model", owned_by: "gemini", created: 1686935002}` per
backend model, in backend order; for no model `d` is the empty slice, not
nil.  The handler is a function of the backend list, so two calls over the
same list give the same response. -/
theorem C9_model_list (ms : List ModelInfo) :
    ModelListHandler (ms.map Except.ok)
      = Except.ok
          { status := 200,
            body := Body.modelList "list"
              (GoSlice.items (ms.map (fun m =>
                { CreatedAt := 1686935002, ID := m.Name, Object := "model",
                  OwnedBy := "gemini" }))) } ∧
    (ms.map (fun m => ({ CreatedAt := 1686935002, ID := m.Name, Object := "model",
                         OwnedBy := "gemini" } : Model))).length = ms.length ∧
    ModelListHandler ([].map Except.ok)
      = Except.ok { status := 200, body := Body.modelList "list" (GoSlice.items []) } := by
  refine ⟨?_, by simp, ?_⟩
  · simp [ModelListHandler, listModelsLoop_ok, JSON_StatusOK]
  · simp [ModelListHandler, listModelsLoop, JSON_StatusOK]

/-! ## Chat and embedding handlers: claims C2, C3, C6, C7 -/

/-- C2 (counterexample): when the only chunk delivered is the text `[DONE]`,
the handler renders the event `data: [DONE]` twice, once for the chunk and
once on closure. -/
theorem C2_done_chunk_renders_done_twice :
    (ChatProxyHandler sampleValidation
        { GenerateContent := fun _ _ _ => Except.ok { raw := "answer" },
          GenerateStreamContent := fun _ _ _ =>
            Except.ok { pending := ["[DONE]"], closed := true },
          GenerateEmbedding := fun _ _ => Except.ok { raw := "vector" } }
        { Authorization := "Bearer k",
          ShouldBindJSON := Except.ok { Model := "m", Stream := true } }).response.body
      = Body.eventStream [{ Data := "data: [DONE]" }, { Data := "data: [DONE]" }] true ∧
    ([{ Data := "data: [DONE]" }, { Data := "data: [DONE]" }] : List Event).count
      { Data := "data: [DONE]" } = 2 := by
  constructor
  · simp [ChatProxyHandler, sampleValidation, Stream]
  · decide

/-- C2 (amended): in streaming mode, when the data channel delivers the
chunks `c1, ..., cn` (`n ≥ 0`) and is then closed, the handler renders
exactly the events `data: c1`, ..., `data: cn`, `data: [DONE]` in that order
and returns: `n + 1` events, one per chunk in channel order, with
`data: [DONE]` last; the event `data: [DONE]` appears exactly once if and
only if no chunk is itself the text `[DONE]`. -/
theorem C2_stream_order (v : Validation) (client : Backend)
    (c : Context ChatCompletionRequest) (token : String) (req : ChatCompletionRequest)
    (messages : List Content) (chunks : List String)
    (hauth : v.Sscanf c.Authorization = Except.ok token)
    (hbind : c.ShouldBindJSON = Except.ok req)
    (hmsg : v.chatToGenaiMessages req = Except.ok messages)
    (hstream : req.Stream = true)
    (hchan : client.GenerateStreamContent req.Model req messages
      = Except.ok { pending := chunks, closed := true }) :
    (ChatProxyHandler v client c).response.body
      = Body.eventStream
          (chunks.map (fun data => { Data := "data: " ++ data }) ++ [{ Data := "data: [DONE]" }])
          true ∧
    (chunks.map (fun data => ({ Data := "data: " ++ data } : Event))
      ++ [({ Data := "data: [DONE]" } : Event)]).length = chunks.length + 1 ∧
    (chunks.map (fun data => ({ Data := "data: " ++ data } : Event))
      ++ [({ Data := "data: [DONE]" } : Event)]).getLast?
        = some ({ Data := "data: [DONE]" } : Event) ∧
    ((chunks.map (fun data => ({ Data := "data: " ++ data } : Event))
      ++ [({ Data := "data: [DONE]" } : Event)]).count { Data := "data: [DONE]" } = 1
        ↔ "[DONE]" ∉ chunks) := by
  refine ⟨?_, by simp, by simp, count_done_eq_one_iff chunks⟩
  simp [ChatProxyHandler, hauth, hbind, hmsg, hstream, hchan, Stream_eq]

/-- C2 (witness): the chunks `c1`, `c2` of the sample backend, neither of
which is the text `[DONE]`. -/
theorem C2_stream_order_witness :
    (ChatProxyHandler sampleValidation sampleBackend
        { Authorization := "Bearer k",
          ShouldBindJSON := Except.ok { Model := "m", Stream := true } }).response.body
      = Body.eventStream
          [{ Data := "data: c1" }, { Data := "data: c2" }, { Data := "data: [DONE]" }] true ∧
    ([{ Data := "data: c1" }, { Data := "data: c2" }, { Data := "data: [DONE]" }] :
      List Event).count { Data := "data: [DONE]" } = 1 :=
  ⟨(C2_stream_order sampleValidation sampleBackend
      { Authorization := "Bearer k",
        ShouldBindJSON := Except.ok { Model := "m", Stream := true } }
      "Bearer k" { Model := "m", Stream := true } [{ raw := "hi" }] ["c1", "c2"]
      (by simp [sampleValidation]) rfl rfl rfl rfl).1,
   ((C2_stream_order sampleValidation sampleBackend
      { Authorization := "Bearer k",
        ShouldBindJSON := Except.ok { Model := "m", Stream := true } }
      "Bearer k" { Model := "m", Stream := true } [{ raw := "hi" }] ["c1", "c2"]
      (by simp [sampleValidation]) rfl rfl rfl rfl).2.2.2).2 (by decide)⟩

/-- C3 (counterexample): with a header that parses and a body that fails JSON
binding, both handlers answer 400 with an error body whose type is the empty
string, not `invalid_request_error`; and when the header does not parse
either, the answer is the 500 of the header failure, not a 400. -/
theorem C3_bind_failure_type_is_empty :
    (ChatProxyHandler sampleValidation sampleBackend
        { Authorization := "Bearer k",
          ShouldBindJSON := Except.error (GoError.plain "unexpected end of JSON input") }).response
      = { status := 400,
          body := Body.apiError
            { Code := AnyCode.int 400, Message := "unexpected end of JSON input", Type_ := "" } } ∧
    (EmbeddingProxyHandler sampleValidation sampleBackend
        { Authorization := "Bearer k",
          ShouldBindJSON := Except.error (GoError.plain "unexpected end of JSON input") }).response
      = { status := 400,
          body := Body.apiError
            { Code := AnyCode.int 400, Message := "unexpected end of JSON input", Type_ := "" } } ∧
    (ChatProxyHandler sampleValidation sampleBackend
        { Authorization := "",
          ShouldBindJSON := Except.error (GoError.plain "unexpected end of JSON input")
        }).response.status = 500 := by
  refine ⟨?_, ?_, ?_⟩ <;>
    simp [ChatProxyHandler, EmbeddingProxyHandler, sampleValidation,
      handleGenerateContentError, GoError.asAPIError, GoError.asGoogleError, GoError.Error,
      StatusBadRequest, StatusInternalServerError, JSON_400, AbortWithStatusJSON_500]

/-- C3 (amended): for every request to `ChatProxyHandler` or
`EmbeddingProxyHandler` whose Authorization header parses and whose body
fails JSON binding, the response has status 400 and the error body
`{code: 400, message: <the binding error's text>}` with the type left empty;
the context is not aborted. -/
theorem C3_bind_failure_is_400 (v : Validation) (client : Backend)
    (c : Context ChatCompletionRequest) (ce : Context EmbeddingRequest)
    (token tokenE : String) (err errE : GoError)
    (hauth : v.Sscanf c.Authorization = Except.ok token)
    (hbind : c.ShouldBindJSON = Except.error err)
    (hauthE : v.Sscanf ce.Authorization = Except.ok tokenE)
    (hbindE : ce.ShouldBindJSON = Except.error errE) :
    (ChatProxyHandler v client c).response
      = { status := 400,
          body := Body.apiError
            { Code := AnyCode.int 400, Message := err.Error, Type_ := "" },
          aborted := false } ∧
    (EmbeddingProxyHandler v client ce).response
      = { status := 400,
          body := Body.apiError
            { Code := AnyCode.int 400, Message := errE.Error, Type_ := "" },
          aborted := false } := by
  constructor
  · simp [ChatProxyHandler, hauth, hbind, StatusBadRequest, JSON_400]
  · simp [EmbeddingProxyHandler, hauthE, hbindE, StatusBadRequest, JSON_400]

/-- C3 (witness): a body that is cut short, on both endpoints. -/
theorem C3_bind_failure_is_400_witness :
    (ChatProxyHandler sampleValidation failingBackend
        { Authorization := "Bearer k",
          ShouldBindJSON := Except.error (GoError.plain "EOF") }).response
      = { status := 400,
          body := Body.apiError { Code := AnyCode.int 400, Message := "EOF", Type_ := "" },
          aborted := false } ∧
    (EmbeddingProxyHandler sampleValidation failingBackend
        { Authorization := "Bearer k",
          ShouldBindJSON := Except.error (GoError.plain "EOF") }).response
      = { status := 400,
          body := Body.apiError { Code := AnyCode.int 400, Message := "EOF", Type_ := "" },
          aborted := false } :=
  C3_bind_failure_is_400 sampleValidation failingBackend
    { Authorization := "Bearer k", ShouldBindJSON := Except.error (GoError.plain "EOF") }
    { Authorization := "Bearer k", ShouldBindJSON := Except.error (GoError.plain "EOF") }
    "Bearer k" "Bearer k" (GoError.plain "EOF") (GoError.plain "EOF")
    (by simp [sampleValidation]) rfl (by simp [sampleValidation]) rfl

/-- C6 (counterexample): on an empty Authorization header, which
`fmt.Sscanf` rejects with `unexpected EOF`, both handlers answer with status
500 and the type `server_error`, not `invalid_request_error`. -/
theorem C6_empty_header_is_server_error :
    (ChatProxyHandler sampleValidation sampleBackend
        { Authorization := "",
          ShouldBindJSON := Except.ok { Model := "m", Stream := false } }).response
      = { status := 500,
          body := Body.apiError
            { Code := AnyCode.int 500, Message := "unexpected EOF", Type_ := "server_error" },
          aborted := true } ∧
    (EmbeddingProxyHandler sampleValidation sampleBackend
        { Authorization := "",
          ShouldBindJSON := Except.ok { Model := "m" } }).response
      = { status := 500,
          body := Body.apiError
            { Code := AnyCode.int 500, Message := "unexpected EOF", Type_ := "server_error" },
          aborted := true } := by
  constructor <;>
    simp [ChatProxyHandler, EmbeddingProxyHandler, sampleValidation,
      handleGenerateContentError, GoError.asAPIError, GoError.asGoogleError, GoError.Error,
      StatusInternalServerError, AbortWithStatusJSON_500]

/-- C6 (amended): for every request to `ChatProxyHandler` or
`EmbeddingProxyHandler` whose Authorization header fails to parse as
`Bearer <token>`, the request is aborted with status 500 and the body
`{code: 500, message: <the parse error's text>, type: "server_error"}`. -/
theorem C6_auth_failure_is_server_error (v : Validation) (client : Backend)
    (c : Context ChatCompletionRequest) (ce : Context EmbeddingRequest)
    (text textE : String)
    (hauth : v.Sscanf c.Authorization = Except.error text)
    (hauthE : v.Sscanf ce.Authorization = Except.error textE) :
    (ChatProxyHandler v client c).response
      = { status := 500,
          body := Body.apiError
            { Code := AnyCode.int 500, Message := text, Type_ := "server_error" },
          aborted := true } ∧
    (EmbeddingProxyHandler v client ce).response
      = { status := 500,
          body := Body.apiError
            { Code := AnyCode.int 500, Message := textE, Type_ := "server_error" },
          aborted := true } := by
  constructor
  · simp [ChatProxyHandler, hauth, handleGenerateContentError, GoError.asAPIError,
      GoError.asGoogleError, GoError.Error, StatusInternalServerError, AbortWithStatusJSON_500]
  · simp [EmbeddingProxyHandler, hauthE, handleGenerateContentError, GoError.asAPIError,
      GoError.asGoogleError, GoError.Error, StatusInternalServerError, AbortWithStatusJSON_500]

/-- C6 (witness): the empty header on both endpoints, with a body that
would bind. -/
theorem C6_auth_failure_is_server_error_witness :
    (ChatProxyHandler sampleValidation failingBackend
        { Authorization := "",
          ShouldBindJSON := Except.ok { Model := "m", Stream := true } }).response
      = { status := 500,
          body := Body.apiError
            { Code := AnyCode.int 500, Message := "unexpected EOF", Type_ := "server_error" },
          aborted := true } ∧
    (EmbeddingProxyHandler sampleValidation failingBackend
        { Authorization := "",
          ShouldBindJSON := Except.ok { Model := "m" } }).response
      = { status := 500,
          body := Body.apiError
            { Code := AnyCode.int 500, Message := "unexpected EOF", Type_ := "server_error" },
          aborted := true } :=
  C6_auth_failure_is_server_error sampleValidation failingBackend
    { Authorization := "", ShouldBindJSON := Except.ok { Model := "m", Stream := true } }
    { Authorization := "", ShouldBindJSON := Except.ok { Model := "m" } }
    "unexpected EOF" "unexpected EOF"
    (by simp [sampleValidation]) (by simp [sampleValidation])

/-- C7: validation fails fast.  For every request to `ChatProxyHandler`
whose Authorization header does not parse, whose JSON binding fails or whose
`ToGenaiMessages` returns an error, the handler answers with an error body
and makes no backend call, so the outcome is the same for every backend; the
same holds for `EmbeddingProxyHandler`. -/
theorem C7_validation_fails_fast (v : Validation) (client client2 : Backend)
    (c : Context ChatCompletionRequest) (ce : Context EmbeddingRequest)
    (hchat : (∃ text, v.Sscanf c.Authorization = Except.error text) ∨
      (∃ err, c.ShouldBindJSON = Except.error err) ∨
      (∃ req err, c.ShouldBindJSON = Except.ok req ∧
        v.chatToGenaiMessages req = Except.error err))
    (hemb : (∃ text, v.Sscanf ce.Authorization = Except.error text) ∨
      (∃ err, ce.ShouldBindJSON = Except.error err) ∨
      (∃ req err, ce.ShouldBindJSON = Except.ok req ∧
        v.embeddingToGenaiMessages req = Except.error err)) :
    ((ChatProxyHandler v client c).calls = [] ∧
      (∃ e, (ChatProxyHandler v client c).response.body = Body.apiError e) ∧
      ChatProxyHandler v client2 c = ChatProxyHandler v client c) ∧
    ((EmbeddingProxyHandler v client ce).calls = [] ∧
      (∃ e, (EmbeddingProxyHandler v client ce).response.body = Body.apiError e) ∧
      EmbeddingProxyHandler v client2 ce = EmbeddingProxyHandler v client ce) := by
  constructor
  · cases hs : v.Sscanf c.Authorization with
    | error text =>
      simp [ChatProxyHandler, hs, handleGenerateContentError, GoError.asAPIError,
        GoError.asGoogleError, StatusInternalServerError, AbortWithStatusJSON_500]
    | ok token =>
      cases hb : c.ShouldBindJSON with
      | error err => simp [ChatProxyHandler, hs, hb, StatusBadRequest, JSON_400]
      | ok req =>
        cases hm : v.chatToGenaiMessages req with
        | error err => simp [ChatProxyHandler, hs, hb, hm, StatusBadRequest, JSON_400]
        | ok messages =>
          rcases hchat with ⟨t, ht⟩ | ⟨e, he⟩ | ⟨r, e, hr, he⟩
          · rw [hs] at ht; cases ht
          · rw [hb] at he; cases he
          · rw [hb] at hr
            cases hr
            rw [hm] at he; cases he
  · cases hs : v.Sscanf ce.Authorization with
    | error text =>
      simp [EmbeddingProxyHandler, hs, handleGenerateContentError, GoError.asAPIError,
        GoError.asGoogleError, StatusInternalServerError, AbortWithStatusJSON_500]
    | ok token =>
      cases hb : ce.ShouldBindJSON with
      | error err => simp [EmbeddingProxyHandler, hs, hb, StatusBadRequest, JSON_400]
      | ok req =>
        cases hm : v.embeddingToGenaiMessages req with
        | error err => simp [EmbeddingProxyHandler, hs, hb, hm, StatusBadRequest, JSON_400]
        | ok messages =>
          rcases hemb with ⟨t, ht⟩ | ⟨e, he⟩ | ⟨r, e, hr, he⟩
          · rw [hs] at ht; cases ht
          · rw [hb] at he; cases he
          · rw [hb] at hr
            cases hr
            rw [hm] at he; cases he

/-- C7 (witness): a chat request whose body does not bind and an embedding
request with an empty header, against a working and a failing backend. -/
theorem C7_validation_fails_fast_witness :
    ((ChatProxyHandler sampleValidation sampleBackend
        { Authorization := "Bearer k",
          ShouldBindJSON := Except.error (GoError.plain "EOF") }).calls = [] ∧
      (∃ e, (ChatProxyHandler sampleValidation sampleBackend
        { Authorization := "Bearer k",
          ShouldBindJSON := Except.error (GoError.plain "EOF") }).response.body
          = Body.apiError e) ∧
      ChatProxyHandler sampleValidation failingBackend
        { Authorization := "Bearer k",
          ShouldBindJSON := Except.error (GoError.plain "EOF") }
        = ChatProxyHandler sampleValidation sampleBackend
            { Authorization := "Bearer k",
              ShouldBindJSON := Except.error (GoError.plain "EOF") }) ∧
    ((EmbeddingProxyHandler sampleValidation sampleBackend
        { Authorization := "", ShouldBindJSON := Except.ok { Model := "m" } }).calls = [] ∧
      (∃ e, (EmbeddingProxyHandler sampleValidation sampleBackend
        { Authorization := "", ShouldBindJSON := Except.ok { Model := "m" } }).response.body
          = Body.apiError e) ∧
      EmbeddingProxyHandler sampleValidation failingBackend
        { Authorization := "", ShouldBindJSON := Except.ok { Model := "m" } }
        = EmbeddingProxyHandler sampleValidation sampleBackend
            { Authorization := "", ShouldBindJSON := Except.ok { Model := "m" } }) :=
  C7_validation_fails_fast sampleValidation sampleBackend failingBackend
    { Authorization := "Bearer k", ShouldBindJSON := Except.error (GoError.plain "EOF") }
    { Authorization := "", ShouldBindJSON := Except.ok { Model := "m" } }
    (Or.inr (Or.inl ⟨GoError.plain "EOF", rfl⟩))
    (Or.inl ⟨"unexpected EOF", by simp [sampleValidation]⟩)

end GeminiProxy
